import Mathlib

/-
Verification of the cache subsystem of the n-lib repository
(src/library-admin/backend/cache/InMemoryCache.js, CacheFactory.js, and
src/library-admin/src/utils/cache/InMemoryCache.ts).

Modelling conventions:
- The JS `Map` is embedded as an insertion-ordered association list
  `List (String × β)` with unique keys; `Map.get`/`Map.set`/`Map.delete`
  become `mapGet`/`mapSet`/`mapDelete` (set keeps the position of an
  existing key, appends new keys; delete removes the sole occurrence).
- Timestamps are `Int` milliseconds on a local clock with uniform
  86400000-ms days (`Date.now` / `setHours(24,0,0,0)`); no DST is modelled.
- JS `null` / TS `undefined` arguments become `Option`.
- JS truthiness: `entry.expiresAt && now > entry.expiresAt` treats a zero
  timestamp as "no expiry", and `ttl ? ... : null` treats `ttl = 0` as
  "store no expiry"; both are embedded explicitly.
- `deletePattern` compiles its glob to a regex without escaping, so a
  leftover `.` is the regex metacharacter and the compiled `.`/`.*`
  never match line terminators; `globMatch` embeds the compiled match on
  the patterns free of the remaining (unmodelled) metacharacters, and
  `specGlobMatch` states the spec's glob semantics for comparison.
- The registry of `CacheFactory` is a plain object literal, so the
  untyped lookup `this.cacheTypes[type]` also finds properties inherited
  from `Object.prototype`, and assigning to the key `__proto__` in
  `register` mutates the prototype instead of adding an own entry; both
  are embedded (registries with an otherwise untouched prototype).
- `toFixed(2)` on the hit-rate percentage is embedded as exact rational
  rounding to hundredths (`toFixed2`).
-/

namespace LibraryCache

/-- Cache entry as stored by both InMemoryCache implementations:
value plus creation and expiry timestamps; `expiresAt = none` embeds
the JS `null` ("never expires by time"). -/
structure CacheEntry (V : Type) where
  value : V
  createdAt : Int
  expiresAt : Option Int
  deriving DecidableEq

/-- Embeds `Map.prototype.get`: first entry with the given key. -/
def mapGet {β : Type} (k : String) : List (String × β) → Option β
  | [] => none
  | (k1, v) :: rest => if k1 = k then some v else mapGet k rest

/-- Embeds `Map.prototype.set`: replace in place if the key is present
(keeping its insertion position), otherwise append at the end. -/
def mapSet {β : Type} (k : String) (v : β) : List (String × β) → List (String × β)
  | [] => [(k, v)]
  | (k1, v1) :: rest => if k1 = k then (k, v) :: rest else (k1, v1) :: mapSet k v rest

/-- Embeds `Map.prototype.delete`: remove the entry with the given key. -/
def mapDelete {β : Type} (k : String) : List (String × β) → List (String × β)
  | [] => []
  | (k1, v1) :: rest => if k1 = k then rest else (k1, v1) :: mapDelete k rest

/-- Embeds the expiry test `entry.expiresAt && Date.now() > entry.expiresAt`
used by `get`, `has` and `_cleanup`. JS truthiness makes a numeric
`expiresAt` of 0 behave like `null`. -/
def isExpired {V : Type} (e : CacheEntry V) (now : Int) : Bool :=
  match e.expiresAt with
  | none => false
  | some t => (t != 0) && (decide (t < now))

/-- State of an InMemoryCache instance: the insertion-ordered store, the
constructor options `defaultTTL` and `maxSize`, and the `_stats` counters. -/
structure CacheState (V : Type) where
  store : List (String × CacheEntry V)
  defaultTTL : Option Int
  maxSize : Nat
  hits : Nat
  misses : Nat
  sets : Nat
  deletes : Nat
  deriving DecidableEq

/-- Embeds `InMemoryCache.get(key)`: miss on absent key, expired entries
are removed and counted as misses, otherwise a hit returning the value. -/
def get {V : Type} (now : Int) (key : String) (st : CacheState V) :
    Option V × CacheState V :=
  match mapGet key st.store with
  | none => (none, { st with misses := st.misses + 1 })
  | some entry =>
    if isExpired entry now then
      (none, { st with store := mapDelete key st.store, misses := st.misses + 1 })
    else
      (some entry.value, { st with hits := st.hits + 1 })

/-- Embeds `_getSecondsUntilMidnight`: ms to the next local midnight,
floored to seconds (`setHours(24,0,0,0)` followed by `Math.floor`). -/
def secondsUntilMidnight (now : Int) : Int :=
  (86400000 - now % 86400000) / 1000

/-- Embeds the TTL resolution in `set`: an explicit `ttlSeconds` argument
wins; otherwise a non-null `defaultTTL`; otherwise seconds until the next
local midnight. -/
def resolveTTL {V : Type} (st : CacheState V) (ttlSeconds : Option Int)
    (now : Int) : Int :=
  match ttlSeconds with
  | some t => t
  | none =>
    match st.defaultTTL with
    | none => secondsUntilMidnight now
    | some d => d

/-- Embeds the entry construction in `set`:
`{ value, createdAt: Date.now(), expiresAt: ttl ? Date.now() + ttl*1000 : null }`. -/
def mkEntry {V : Type} (now ttl : Int) (value : V) : CacheEntry V :=
  { value := value
    createdAt := now
    expiresAt := if ttl = 0 then none else some (now + ttl * 1000) }

/-- Embeds the capacity check at the top of `set`: when the store holds at
least `maxSize` entries, the first (oldest-inserted) key is deleted. -/
def evictIfFull {V : Type} (store : List (String × CacheEntry V))
    (maxSize : Nat) : List (String × CacheEntry V) :=
  if store.length ≥ maxSize then
    match store with
    | [] => []
    | (firstKey, _) :: _ => mapDelete firstKey store
  else store

/-- Embeds `InMemoryCache.set(key, value, ttlSeconds)`. -/
def set {V : Type} (now : Int) (key : String) (value : V)
    (ttlSeconds : Option Int) (st : CacheState V) : CacheState V :=
  { st with
      store := mapSet key (mkEntry now (resolveTTL st ttlSeconds now) value)
        (evictIfFull st.store st.maxSize)
      sets := st.sets + 1 }

/-- Embeds `InMemoryCache.delete(key)`: physical removal, `deletes`
incremented only when the key was present, returns whether it was. -/
def delete {V : Type} (key : String) (st : CacheState V) :
    Bool × CacheState V :=
  let existed := (mapGet key st.store).isSome
  if existed then
    (true, { st with store := mapDelete key st.store, deletes := st.deletes + 1 })
  else
    (false, { st with store := mapDelete key st.store })

/-- Line terminators of JS regexes: the characters that `.` (and hence
the compiled `.*`) never matches without the `s` flag. -/
def isLineTerminator (c : Char) : Bool :=
  c = '\n' || c = '\r' || c = '\u2028' || c = '\u2029'

/-- Regex syntax characters that `deletePattern` leaves unescaped and
whose regex behaviour this embedding does not model (`*` and `?` are
consumed by the glob compilation and a leftover `.` is modelled): a
pattern containing one of these lies outside the domain on which
`globMatch` embeds the compiled regex. -/
def jsRegexUnsupported (c : Char) : Bool :=
  c = '+' || c = '^' || c = '$' || c = '(' || c = ')' ||
  c = '[' || c = ']' || c = '\x7b' || c = '\x7d' || c = '|' || c = '\\'

/-- Suffixes of `s` reachable by consuming only non-line-terminator
characters from the front: the ways the compiled `.*` can split `s`. -/
def starTails : List Char → List (List Char)
  | [] => [[]]
  | c :: cs => (c :: cs) :: (if isLineTerminator c then [] else starTails cs)

/-- Embeds the matcher of `deletePattern` on its compiled anchored regex:
the code replaces `*` by `.*` (any run of non-line-terminator
characters) and `?` by `.` (exactly one non-line-terminator character)
and escapes nothing, so a literal `.` in the pattern is the regex `.` as
well; every other character matches itself.  Faithful for patterns
containing no character of `jsRegexUnsupported`. -/
def globMatch : List Char → List Char → Bool
  | [], s => s.isEmpty
  | p :: ps, s =>
    if p = '*' then (starTails s).any (fun t => globMatch ps t)
    else
      match s with
      | [] => false
      | c :: cs =>
        if p = '?' ∨ p = '.' then !isLineTerminator c && globMatch ps cs
        else (p == c) && globMatch ps cs

/-- Follows the spec's words, for comparison with the compiled-regex
matcher `globMatch`: the glob syntax the specification states for
`deletePattern` has only `*` (matching any run of characters) and `?`
(matching exactly one character) special, and every other character,
including `.`, matches only itself. -/
def specGlobMatch : List Char → List Char → Bool
  | [], s => s.isEmpty
  | p :: ps, s =>
    if p = '*' then (s.tails).any (fun t => specGlobMatch ps t)
    else
      match s with
      | [] => false
      | c :: cs =>
        if p = '?' then specGlobMatch ps cs
        else (p == c) && specGlobMatch ps cs

/-- Embeds `InMemoryCache.deletePattern(pattern)`: remove every key whose
full string matches the compiled glob, add the count to `deletes`,
return the count. -/
def deletePattern {V : Type} (pattern : String) (st : CacheState V) :
    Nat × CacheState V :=
  let deletedCount := (st.store.filter (fun kv => globMatch pattern.data kv.1.data)).length
  (deletedCount,
   { st with
       store := st.store.filter (fun kv => !(globMatch pattern.data kv.1.data))
       deletes := st.deletes + deletedCount })

/-- Embeds `InMemoryCache.clear()`: empty the store and reset all
statistics counters (options are untouched). -/
def clear {V : Type} (st : CacheState V) : CacheState V :=
  { st with store := [], hits := 0, misses := 0, sets := 0, deletes := 0 }

/-- Embeds `InMemoryCache.has(key)`: like `get` (expired entries are
removed) but without touching the statistics. -/
def has {V : Type} (now : Int) (key : String) (st : CacheState V) :
    Bool × CacheState V :=
  match mapGet key st.store with
  | none => (false, st)
  | some entry =>
    if isExpired entry now then
      (false, { st with store := mapDelete key st.store })
    else
      (true, st)

/-- Embeds `Number.prototype.toFixed(2)` on the hit-rate percentage as
exact rounding of the rational to hundredths. -/
def toFixed2 (q : ℚ) : ℚ := ((round (q * 100) : ℤ) : ℚ) / 100

/-- Result record of `InMemoryCache.stats()`; the backend reports the
zero-reads hit rate as the number 0 and the frontend as the string
"0.00", both embedded as the rational 0. -/
structure CacheStats where
  type : String
  size : Nat
  maxSize : Nat
  hits : Nat
  misses : Nat
  sets : Nat
  deletes : Nat
  hitRate : ℚ
  deriving DecidableEq

/-- Embeds `InMemoryCache.stats()`. -/
def stats {V : Type} (st : CacheState V) : CacheStats :=
  { type := "in-memory"
    size := st.store.length
    maxSize := st.maxSize
    hits := st.hits
    misses := st.misses
    sets := st.sets
    deletes := st.deletes
    hitRate :=
      if st.hits + st.misses > 0 then
        toFixed2 (((st.hits : ℚ) / ((st.hits : ℚ) + (st.misses : ℚ))) * 100)
      else 0 }

/-- Embeds the background sweep `InMemoryCache._cleanup()`: remove every
expired entry; the statistics are untouched. -/
def cleanup {V : Type} (now : Int) (st : CacheState V) : CacheState V :=
  { st with store := st.store.filter (fun kv => !(isExpired kv.2 now)) }

/-- Record with an `id` field, embedding the `T extends { id: string }`
bound of the frontend collection-consistency helpers. -/
structure IdRecord (α : Type) where
  id : String
  payload : α
  deriving DecidableEq

/-- Embeds `InMemoryCache.addToArray(arrayKey, item)` of the frontend
cache: read through `get`, return unchanged on a miss, otherwise
re-`set` the array with the item appended (no explicit TTL). -/
def addToArray {α : Type} (now : Int) (arrayKey : String) (item : IdRecord α)
    (st : CacheState (List (IdRecord α))) : CacheState (List (IdRecord α)) :=
  let r := get now arrayKey st
  match r.1 with
  | none => r.2
  | some cached => set now arrayKey (cached ++ [item]) none r.2

/-- Embeds `InMemoryCache.removeFromArray(arrayKey, id)` of the frontend
cache: read through `get`, return unchanged on a miss, otherwise
re-`set` the array filtered by `i.id !== id` (no explicit TTL). -/
def removeFromArray {α : Type} (now : Int) (arrayKey : String) (id : String)
    (st : CacheState (List (IdRecord α))) : CacheState (List (IdRecord α)) :=
  let r := get now arrayKey st
  match r.1 with
  | none => r.2
  | some cached => set now arrayKey (cached.filter (fun i => i.id != id)) none r.2

/-- Own property names of `Object.prototype`, inherited by the plain
object literal `cacheTypes`: the untyped lookup `this.cacheTypes[type]`
finds these through the prototype chain, and each names a non-null
value, so the unknown-type check is skipped for them. -/
def objectPrototypeProps : List String :=
  ["constructor", "hasOwnProperty", "isPrototypeOf", "propertyIsEnumerable",
   "toLocaleString", "toString", "valueOf",
   "__defineGetter__", "__defineSetter__", "__lookupGetter__",
   "__lookupSetter__", "__proto__"]

/-- Outcome of `CacheFactory.create`: an instance of a registered class
(identified here by the class value); the plain object returned by
`new Object(options)` when the lookup hit `Object.prototype.constructor`
(not a cache); the configuration throw for a truly absent type; or the
TypeError thrown by `new` on an inherited value that is not a
constructor. -/
inductive CreateResult (κ : Type) where
  | created : κ → CreateResult κ
  | protoObject : CreateResult κ
  | configError : String → CreateResult κ
  | typeError : CreateResult κ
  deriving DecidableEq

/-- Embeds `CacheFactory.create({type, options})`: `config.type || 'memory'`
falls back to `"memory"` for a missing or empty type; the untyped lookup
`this.cacheTypes[type]` consults own keys and then the prototype chain,
so only a type that is neither registered nor inherited from
`Object.prototype` throws the configuration error; `"constructor"`
inherits `Object` and `new Object(options)` hands back a plain object,
while the other inherited values are not constructors and `new` throws a
TypeError.  Faithful for registries whose prototype is untouched (no
`register` under the name `__proto__`). -/
def CacheFactory.create {κ : Type} (cacheTypes : List (String × κ))
    (cfgType : Option String) : CreateResult κ :=
  let type := match cfgType with
    | none => "memory"
    | some t => if t = "" then "memory" else t
  match mapGet type cacheTypes with
  | some cls => CreateResult.created cls
  | none =>
    if type = "constructor" then CreateResult.protoObject
    else if type ∈ objectPrototypeProps then CreateResult.typeError
    else CreateResult.configError ("Unknown cache type: " ++ type)

/-- Embeds `CacheFactory.register(name, CacheClass)`:
`this.cacheTypes[name] = CacheClass` adds or overwrites an own binding,
except that assigning to the key `__proto__` goes through the inherited
accessor and mutates the object's prototype instead, creating no own
entry (the registry's own-key table is unchanged). -/
def CacheFactory.register {κ : Type} (cacheTypes : List (String × κ))
    (name : String) (cls : κ) : List (String × κ) :=
  if name = "__proto__" then cacheTypes else mapSet name cls cacheTypes

/-- Embeds the statically initialised registry
`{ 'memory': InMemoryCache, 'redis': RedisCache }`, classes identified
by name. -/
def defaultCacheTypes : List (String × String) :=
  [("memory", "InMemoryCache"), ("redis", "RedisCache")]

/-- Fresh cache constructed with `defaultTTL = null` (expire at next local
midnight) and the default `maxSize`. -/
def stMidnightCfg : CacheState Nat :=
  { store := [], defaultTTL := none, maxSize := 1000
    hits := 0, misses := 0, sets := 0, deletes := 0 }

/-- Fresh cache constructed with `defaultTTL = 60` seconds and `maxSize = 2`. -/
def stTwo : CacheState Nat :=
  { store := [], defaultTTL := some 60, maxSize := 2
    hits := 0, misses := 0, sets := 0, deletes := 0 }

/-- Trace for the capacity-2 eviction scenario: after `set("k1",1)`. -/
def c1s1 : CacheState Nat := set 0 "k1" 1 none stTwo

/-- Trace continued: after `set("k2",2)`, the cache is at capacity. -/
def c1s2 : CacheState Nat := set 0 "k2" 2 none c1s1

/-- Trace continued: `k1` is read after insertion (a hit). -/
def c1s2g : CacheState Nat := (get 0 "k1" c1s2).2

/-- Trace continued: `set("k3",3)` at capacity. -/
def c1s3 : CacheState Nat := set 0 "k3" 3 none c1s2g

/-- Trace for the eviction counterexample: `set("k2",3)` re-sets the
already-present key `k2` while the cache is at capacity. -/
def c1x : CacheState Nat := set 0 "k2" 3 none c1s2

/-- Cache physically holding an entry for `"k"` that expired at time 5,
with all counters at zero. -/
def stExpired : CacheState Nat :=
  { store := [("k", { value := 7, createdAt := 0, expiresAt := some 5 })]
    defaultTTL := some 60, maxSize := 1000
    hits := 0, misses := 0, sets := 0, deletes := 0 }

/-- Cache holding the three keys of the pattern-invalidation scenario. -/
def stBooks : CacheState Nat :=
  { store :=
      [("books:all", { value := 1, createdAt := 0, expiresAt := none })
      , ("books:5", { value := 2, createdAt := 0, expiresAt := none })
      , ("users:all", { value := 3, createdAt := 0, expiresAt := none })]
    defaultTTL := some 60, maxSize := 1000
    hits := 0, misses := 0, sets := 0, deletes := 0 }

/-- Cache holding a key with a literal dot and a key that has an
ordinary letter at that position. -/
def stDotKeys : CacheState Nat :=
  { store :=
      [("books.all", { value := 1, createdAt := 0, expiresAt := none })
      , ("booksXall", { value := 2, createdAt := 0, expiresAt := none })]
    defaultTTL := some 60, maxSize := 1000
    hits := 0, misses := 0, sets := 0, deletes := 0 }

/-- Frontend cache whose key `"arr"` holds an array with two records
sharing the id `"a"`. -/
def stDupIds : CacheState (List (IdRecord Nat)) :=
  { store :=
      [("arr",
        { value := [{ id := "a", payload := 1 }, { id := "a", payload := 2 }]
          createdAt := 0, expiresAt := none })]
    defaultTTL := some 60, maxSize := 1000
    hits := 0, misses := 0, sets := 0, deletes := 0 }

/-- Frontend cache whose key `"arr"` holds a one-record array whose id is
not `"a"`. -/
def stNoMatch : CacheState (List (IdRecord Nat)) :=
  { store :=
      [("arr", { value := [{ id := "b", payload := 1 }], createdAt := 0, expiresAt := none })]
    defaultTTL := some 60, maxSize := 1000
    hits := 0, misses := 0, sets := 0, deletes := 0 }

/-- Trace for the statistics scenario: one never-expiring entry, then
three hits on it and one miss on an unset key. -/
def c6Trace : CacheState Nat :=
  (get 4 "zz" ((get 3 "a" ((get 2 "a" ((get 1 "a"
    (set 0 "a" 5 (some 0) stMidnightCfg)).2)).2)).2)).2

/-- Looking up a key right after `mapSet` of that key yields the new value. -/
theorem mapGet_mapSet_self {β : Type} (k : String) (v : β)
    (l : List (String × β)) : mapGet k (mapSet k v l) = some v := by
  induction l with
  | nil => simp [mapGet, mapSet]
  | cons hd tl ih =>
    obtain ⟨k1, v1⟩ := hd
    by_cases h : k1 = k
    · simp [mapGet, mapSet, h]
    · simp [mapGet, mapSet, h, ih]

/-- Effect on `mapGet` of filtering out the entries whose key satisfies a
predicate: a matching key is gone, a non-matching key is untouched. -/
theorem mapGet_filter_keyPred {β : Type} (g : String → Bool) (k : String)
    (l : List (String × β)) :
    mapGet k (l.filter (fun kv => !(g kv.1))) =
      if g k then none else mapGet k l := by
  induction l with
  | nil => by_cases h : g k <;> simp [mapGet, h]
  | cons hd tl ih =>
    obtain ⟨k1, v1⟩ := hd
    by_cases hk : k1 = k
    · subst hk
      by_cases h1 : g k1
      · simp [List.filter_cons, h1, mapGet, ih]
      · simp [List.filter_cons, h1, mapGet]
    · by_cases h1 : g k1
      · simp [List.filter_cons, h1, mapGet, hk, ih]
      · simp [List.filter_cons, h1, mapGet, hk, ih]

/-- Length of an array after filtering out one id, in terms of the number
of records carrying that id. -/
theorem length_filter_ne_id {α : Type} (l : List (IdRecord α)) (id : String) :
    (l.filter (fun i => i.id != id)).length =
      l.length - l.countP (fun i => i.id == id) := by
  induction l with
  | nil => simp
  | cons i tl ih =>
    have hle : tl.countP (fun i => i.id == id) ≤ tl.length :=
      List.countP_le_length _
    by_cases h : i.id = id
    · simp [List.filter_cons, List.countP_cons, h, ih]
    · simp [List.filter_cons, List.countP_cons, h, ih]
      omega

/-- Pointwise-equal predicates give equal `List.any`. -/
theorem list_any_congr {α : Type} {f g : α → Bool} (l : List α)
    (h : ∀ a ∈ l, f a = g a) : l.any f = l.any g := by
  induction l with
  | nil => rfl
  | cons a tl ih =>
    rw [List.any_cons, List.any_cons, h a (by simp),
      ih (fun b hb => h b (by simp [hb]))]

/-- On a string without line terminators the compiled `.*` may stop at
every suffix. -/
theorem starTails_eq_tails (s : List Char)
    (h : ∀ c ∈ s, isLineTerminator c = false) : starTails s = s.tails := by
  induction s with
  | nil => simp [starTails]
  | cons c cs ih =>
    rw [starTails, h c (by simp), List.tails_cons,
      ih (fun d hd => h d (by simp [hd]))]
    simp

/-- For a pattern built from the two glob wildcards and regex-literal
characters (no unescaped metacharacter, no dot), matched against a key
without line terminators, the compiled regex implements exactly the
glob semantics the spec states. -/
theorem globMatch_eq_specGlobMatch :
    ∀ (p s : List Char),
      (∀ c ∈ p, jsRegexUnsupported c = false ∧ c ≠ '.') →
      (∀ c ∈ s, isLineTerminator c = false) →
      globMatch p s = specGlobMatch p s := by
  intro p
  induction p with
  | nil => intro s _ _; rfl
  | cons q ps ih =>
    intro s hp hs
    by_cases hstar : q = '*'
    · subst hstar
      rw [show globMatch ('*' :: ps) s =
            (starTails s).any (fun t => globMatch ps t) by simp [globMatch],
        show specGlobMatch ('*' :: ps) s =
            (s.tails).any (fun t => specGlobMatch ps t) by simp [specGlobMatch],
        starTails_eq_tails s hs]
      refine list_any_congr _ ?_
      intro t ht
      have hsub : ∀ c ∈ t, c ∈ s :=
        fun c hc => ((List.mem_tails t s).mp ht).sublist.subset hc
      exact ih t (fun c hc => hp c (by simp [hc]))
        (fun c hc => hs c (hsub c hc))
    · by_cases hq : q = '?'
      · subst hq
        cases s with
        | nil => simp [globMatch, specGlobMatch, hstar]
        | cons c cs =>
          have hc := hs c (by simp)
          simp [globMatch, specGlobMatch, hstar, hc,
            ih cs (fun d hd => hp d (by simp [hd]))
              (fun d hd => hs d (by simp [hd]))]
      · have hdot : q ≠ '.' := (hp q (by simp)).2
        cases s with
        | nil => simp [globMatch, specGlobMatch, hstar]
        | cons c cs =>
          simp [globMatch, specGlobMatch, hstar, hq, hdot,
            ih cs (fun d hd => hp d (by simp [hd]))
              (fun d hd => hs d (by simp [hd]))]

/-- Claim C1, counterexample: with `maxSize = 2` and the store at capacity
holding `k1` and `k2`, re-setting the already-present key `k2` evicts
`k1` — contradicting "a set whose key is already present in the store
evicts no other entry". -/
theorem c1_eviction_cex :
    (mapGet "k2" c1s2.store).isSome = true
    ∧ c1s2.store.length = c1s2.maxSize
    ∧ (mapGet "k1" c1s2.store).isSome = true
    ∧ mapGet "k1" c1x.store = none := by decide

/-- Claim C1 (amended): on `set`, whenever the store holds at least
`maxSize` entries, the single oldest-inserted entry is evicted before the
insert regardless of whether the key being set is new or already present;
below capacity nothing is evicted; a `get` hit leaves the store
unchanged (an entry's age is unaffected by `get`); and with
`maxSize = 2`, inserting `k1, k2, k3` in order leaves exactly
`{k2, k3}` present even though `k1` was read after its insertion. -/
theorem c1_insertion_order_eviction :
    (∀ (V : Type) (st : CacheState V) (now : Int) (k : String) (v : V)
        (ttl : Option Int) (k0 : String) (e0 : CacheEntry V)
        (rest : List (String × CacheEntry V)),
      st.store = (k0, e0) :: rest →
      st.store.length ≥ st.maxSize →
      (set now k v ttl st).store =
        mapSet k (mkEntry now (resolveTTL st ttl now) v) rest)
    ∧ (∀ (V : Type) (st : CacheState V) (now : Int) (k : String) (v : V)
        (ttl : Option Int),
      st.store.length < st.maxSize →
      (set now k v ttl st).store =
        mapSet k (mkEntry now (resolveTTL st ttl now) v) st.store)
    ∧ (∀ (V : Type) (st : CacheState V) (now : Int) (k : String)
        (e : CacheEntry V),
      mapGet k st.store = some e →
      isExpired e now = false →
      ((get now k st).2).store = st.store)
    ∧ c1s3.store.map Prod.fst = ["k2", "k3"]
    ∧ mapGet "k1" c1s3.store = none := by
  refine ⟨?_, ?_, ?_, by decide, by decide⟩
  · intro V st now k v ttl k0 e0 rest hst hlen
    rw [hst] at hlen
    simp only [List.length_cons, ge_iff_le] at hlen
    simp [set, evictIfFull, hst, hlen, mapDelete]
  · intro V st now k v ttl hlen
    simp [set, evictIfFull, Nat.not_le.mpr hlen]
  · intro V st now k e hm hexp
    simp [get, hm, hexp]

/-- Claim C1, witness: the hit-leaves-store-unchanged conjunct applied to
the concrete capacity-2 trace at the point where `k1` is read. -/
theorem c1_insertion_order_eviction_witness :
    mapGet "k1" c1s2.store = some (mkEntry 0 60 (1 : Nat))
    ∧ isExpired (mkEntry 0 60 (1 : Nat)) 0 = false
    ∧ ((get 0 "k1" c1s2).2).store = c1s2.store :=
  ⟨by decide, by decide,
    c1_insertion_order_eviction.2.2.1 Nat c1s2 0 "k1" (mkEntry 0 60 1)
      (by decide) (by decide)⟩

/-- Claim C2, counterexample: an entry that expired at time 5 is
physically present; `get` at time 10 removes it (a successful
expiry-triggered removal), yet the `deletes` counter is unchanged —
contradicting "every expiry-triggered removal also adds one to deletes". -/
theorem c2_deletes_cex :
    (mapGet "k" stExpired.store).isSome = true
    ∧ (get 10 "k" stExpired).1 = none
    ∧ mapGet "k" ((get 10 "k" stExpired).2).store = none
    ∧ stExpired.deletes = 0
    ∧ ((get 10 "k" stExpired).2).deletes = 0 := by decide

/-- Claim C2 (amended): `delete` on a present key adds one to the
`deletes` counter and `deletePattern` adds one per key removed, but
expiry-triggered removals — an expired entry removed when detected by
`get` or `has`, or removed by the background sweep — do not change
`deletes`. -/
theorem c2_deletes_counter :
    (∀ (V : Type) (st : CacheState V) (k : String),
      (mapGet k st.store).isSome = true →
      (delete k st).1 = true ∧ ((delete k st).2).deletes = st.deletes + 1)
    ∧ (∀ (V : Type) (st : CacheState V) (p : String),
      ((deletePattern p st).2).deletes = st.deletes + (deletePattern p st).1)
    ∧ (∀ (V : Type) (st : CacheState V) (now : Int) (k : String),
      ((get now k st).2).deletes = st.deletes)
    ∧ (∀ (V : Type) (st : CacheState V) (now : Int) (k : String),
      ((has now k st).2).deletes = st.deletes)
    ∧ (∀ (V : Type) (st : CacheState V) (now : Int),
      (cleanup now st).deletes = st.deletes) := by
  refine ⟨?_, ?_, ?_, ?_, ?_⟩
  · intro V st k h
    simp [delete, h]
  · intro V st p
    rfl
  · intro V st now k
    cases hm : mapGet k st.store with
    | none => simp [get, hm]
    | some e => by_cases hexp : isExpired e now <;> simp [get, hm, hexp]
  · intro V st now k
    cases hm : mapGet k st.store with
    | none => simp [has, hm]
    | some e => by_cases hexp : isExpired e now <;> simp [has, hm, hexp]
  · intro V st now
    rfl

/-- Claim C2, witness: the `delete` conjunct applied to a present key in
the concrete three-key cache. -/
theorem c2_deletes_counter_witness :
    (mapGet "books:all" stBooks.store).isSome = true
    ∧ ((delete "books:all" stBooks).1 = true
       ∧ ((delete "books:all" stBooks).2).deletes = stBooks.deletes + 1) :=
  ⟨by decide, c2_deletes_counter.1 Nat stBooks "books:all" (by decide)⟩

/-- Claim C3, counterexample: on a cached array holding two records with
the same id `"a"`, `removeFromArray` removes both — the length drops from
2 to 0, not "by at most one"; and on a cached array without the id the
call is not a no-op: the entry is re-set, incrementing the `sets`
counter. -/
theorem c3_remove_cex :
    (mapGet "arr" stDupIds.store).map (fun e => e.value.length) = some 2
    ∧ (mapGet "arr" ((removeFromArray 0 "arr" "a" stDupIds).store)).map
        (fun e => e.value.length) = some 0
    ∧ stNoMatch.sets = 0
    ∧ (removeFromArray 0 "arr" "a" stNoMatch).sets = 1 := by decide

/-- Claim C3 (amended): `removeFromArray(arrayKey, id)` on a cached
(present and unexpired) array re-sets the key to the array with every
element carrying that id removed — so the length decreases by the number
of matching elements, exactly 1 when exactly one element matches; on an
array without the id the stored value is unchanged but the entry is still
re-set (the `sets` counter increments and the TTL is refreshed); on an
uncached key the only effect is the miss counter. -/
theorem c3_remove_from_array :
    (∀ (α : Type) (now : Int) (key id : String)
        (st : CacheState (List (IdRecord α))) (e : CacheEntry (List (IdRecord α))),
      mapGet key st.store = some e →
      isExpired e now = false →
      mapGet key ((removeFromArray now key id st).store) =
        some (mkEntry now (resolveTTL st none now)
          (e.value.filter (fun i => i.id != id))))
    ∧ (∀ (α : Type) (l : List (IdRecord α)) (id : String),
      (l.filter (fun i => i.id != id)).length =
        l.length - l.countP (fun i => i.id == id))
    ∧ (∀ (α : Type) (l : List (IdRecord α)) (id : String),
      (∀ i ∈ l, i.id ≠ id) → l.filter (fun i => i.id != id) = l)
    ∧ (∀ (α : Type) (now : Int) (key id : String)
        (st : CacheState (List (IdRecord α))),
      mapGet key st.store = none →
      removeFromArray now key id st = { st with misses := st.misses + 1 })
    ∧ (∀ (α : Type) (now : Int) (key id : String)
        (st : CacheState (List (IdRecord α))) (e : CacheEntry (List (IdRecord α))),
      mapGet key st.store = some e →
      isExpired e now = false →
      (removeFromArray now key id st).sets = st.sets + 1) := by
  refine ⟨?_, ?_, ?_, ?_, ?_⟩
  · intro α now key id st e hm hexp
    simp [removeFromArray, get, hm, hexp, set]
    exact mapGet_mapSet_self _ _ _
  · intro α l id
    exact length_filter_ne_id l id
  · intro α l id h
    refine List.filter_eq_self.mpr ?_
    intro i hi
    simpa [bne_iff_ne] using h i hi
  · intro α now key id st hm
    simp [removeFromArray, get, hm]
  · intro α now key id st e hm hexp
    simp [removeFromArray, get, hm, hexp, set]

/-- Claim C3, witness: the uncached-key conjunct applied to a key absent
from the concrete one-entry frontend cache. -/
theorem c3_remove_from_array_witness :
    mapGet "zz" stNoMatch.store = none
    ∧ removeFromArray 0 "zz" "a" stNoMatch =
        { stNoMatch with misses := stNoMatch.misses + 1 } :=
  ⟨by decide, c3_remove_from_array.2.2.2.1 Nat 0 "zz" "a" stNoMatch (by decide)⟩

/-- Claim C4: TTL resolution for `set` follows the priority order — an
explicit `ttlSeconds` wins, otherwise a configured non-null `defaultTTL`,
otherwise the seconds remaining until the next local midnight — and `set`
stores an entry whose expiry is computed from the resolved TTL.  With
`defaultTTL = null`, an entry set at local 23:00:00 gets TTL 3600 and its
`expiresAt` is exactly the following local midnight (it is reported
absent just after midnight), and an entry set at 00:00:01 gets
TTL 86399 seconds. -/
theorem c4_ttl_resolution :
    (∀ (V : Type) (st : CacheState V) (ttl now : Int),
      resolveTTL st (some ttl) now = ttl)
    ∧ (∀ (V : Type) (st : CacheState V) (d now : Int),
      st.defaultTTL = some d → resolveTTL st none now = d)
    ∧ (∀ (V : Type) (st : CacheState V) (now : Int),
      st.defaultTTL = none →
      resolveTTL st none now = secondsUntilMidnight now)
    ∧ (∀ (V : Type) (st : CacheState V) (now : Int) (k : String) (v : V)
        (ttl : Option Int),
      mapGet k ((set now k v ttl st).store) =
        some (mkEntry now (resolveTTL st ttl now) v))
    ∧ secondsUntilMidnight 82800000 = 3600
    ∧ secondsUntilMidnight 1000 = 86399
    ∧ mapGet "k" ((set 82800000 "k" 7 none stMidnightCfg).store) =
        some (mkEntry 82800000 3600 (7 : Nat))
    ∧ (mkEntry 82800000 3600 (7 : Nat)).expiresAt = some 86400000
    ∧ (get 86400001 "k" (set 82800000 "k" 7 none stMidnightCfg)).1 = none
    ∧ (get 86400000 "k" (set 82800000 "k" 7 none stMidnightCfg)).1 = some 7 := by
  refine ⟨?_, ?_, ?_, ?_, by decide, by decide, by decide, by decide,
    by decide, by decide⟩
  · intro V st ttl now
    rfl
  · intro V st d now h
    simp [resolveTTL, h]
  · intro V st now h
    simp [resolveTTL, h]
  · intro V st now k v ttl
    simp only [set]
    exact mapGet_mapSet_self _ _ _

/-- Claim C4, witness: the defaultTTL-null conjunct applied at local
23:00:00 of a midnight-configured cache. -/
theorem c4_ttl_resolution_witness :
    stMidnightCfg.defaultTTL = none
    ∧ resolveTTL stMidnightCfg none 82800000 = secondsUntilMidnight 82800000 :=
  ⟨by decide, c4_ttl_resolution.2.2.1 Nat stMidnightCfg 82800000 (by decide)⟩

/-- Claim C5, counterexample: the code escapes nothing when compiling
its glob to a regex, so in the pattern "books.all" the dot — an ordinary
character under the claimed glob syntax, as `specGlobMatch` records —
acts as the regex metacharacter: `deletePattern("books.all")` also
removes the key "booksXall", a key outside the globbed namespace, and
returns 2 where the claimed semantics match a single key; moreover the
compiled `.`/`.*` never match a line terminator, so "books:*" fails to
match a key containing a newline although the claimed "any run of
characters" semantics matches it. -/
theorem c5_delete_pattern_cex :
    specGlobMatch "books.all".data "booksXall".data = false
    ∧ globMatch "books.all".data "booksXall".data = true
    ∧ (deletePattern "books.all" stDotKeys).1 = 2
    ∧ mapGet "booksXall" (((deletePattern "books.all" stDotKeys).2).store) = none
    ∧ specGlobMatch "books:*".data "books:a\nb".data = true
    ∧ globMatch "books:*".data "books:a\nb".data = false := by decide

/-- Claim C5 (amended): `deletePattern` compiles its glob to an anchored
full-string regex (`*` to `.*`, `?` to `.`) without escaping other regex
metacharacters.  For a pattern containing none of the remaining
metacharacters it removes exactly the keys matching the compiled
pattern and returns their count; restricted further to patterns without
a dot, matched against keys free of line terminators, the compiled
match coincides with the claimed glob semantics (`*` any run, `?`
exactly one character), so no key outside the globbed namespace is
removed.  Given keys `{books:all, books:5, users:all}`,
`deletePattern("books:*")` removes exactly the two books keys, returns
2, and leaves `users:all` present; the match is anchored, so the bare
pattern `"books"` does not match `"books:all"`, and `?` matches exactly
one character. -/
theorem c5_delete_pattern :
    (∀ (V : Type) (p : String) (st : CacheState V) (k : String),
      (∀ c ∈ p.data, jsRegexUnsupported c = false) →
      mapGet k (((deletePattern p st).2).store) =
        if globMatch p.data k.data then none else mapGet k st.store)
    ∧ (∀ (V : Type) (p : String) (st : CacheState V),
      (∀ c ∈ p.data, jsRegexUnsupported c = false) →
      (deletePattern p st).1 =
        (st.store.filter (fun kv => globMatch p.data kv.1.data)).length)
    ∧ (∀ (p s : List Char),
      (∀ c ∈ p, jsRegexUnsupported c = false ∧ c ≠ '.') →
      (∀ c ∈ s, isLineTerminator c = false) →
      globMatch p s = specGlobMatch p s)
    ∧ (deletePattern "books:*" stBooks).1 = 2
    ∧ mapGet "books:all" (((deletePattern "books:*" stBooks).2).store) = none
    ∧ mapGet "books:5" (((deletePattern "books:*" stBooks).2).store) = none
    ∧ mapGet "users:all" (((deletePattern "books:*" stBooks).2).store) =
        some { value := 3, createdAt := 0, expiresAt := none }
    ∧ globMatch "books".data "books:all".data = false
    ∧ globMatch "books:?".data "books:5".data = true
    ∧ globMatch "books:?".data "books:55".data = false := by
  refine ⟨?_, ?_, globMatch_eq_specGlobMatch, by decide, by decide, by decide,
    by decide, by decide, by decide, by decide⟩
  · intro V p st k _hp
    simp only [deletePattern]
    exact mapGet_filter_keyPred (fun s => globMatch p.data s.data) k st.store
  · intro V p st _hp
    rfl

/-- Claim C5, witness: the removal conjunct applied to the concrete
metacharacter-free pattern `"books:*"` and the untouched key
`"users:all"`. -/
theorem c5_delete_pattern_witness :
    (∀ c ∈ "books:*".data, jsRegexUnsupported c = false)
    ∧ mapGet "users:all" (((deletePattern "books:*" stBooks).2).store) =
        (if globMatch "books:*".data "users:all".data then none
         else mapGet "users:all" stBooks.store) :=
  ⟨by decide, c5_delete_pattern.1 Nat "books:*" stBooks "users:all" (by decide)⟩

/-- Claim C6: `stats()` reports `hitRate = hits / (hits + misses)` as a
percentage rounded to two decimal places once at least one read has
occurred, and 0 when no reads have occurred; `clear()` removes all
entries and resets all statistics counters, so afterwards
`hits = misses = sets = deletes = 0` and `size = 0`.  On the concrete
trace with 3 hits and 1 miss the reported hit rate is 75 (i.e. 75.00%). -/
theorem c6_stats_and_clear :
    (∀ (V : Type) (st : CacheState V),
      st.hits + st.misses > 0 →
      (stats st).hitRate =
        toFixed2 (((st.hits : ℚ) / ((st.hits : ℚ) + (st.misses : ℚ))) * 100))
    ∧ (∀ (V : Type) (st : CacheState V),
      st.hits + st.misses = 0 → (stats st).hitRate = 0)
    ∧ (∀ (V : Type) (st : CacheState V),
      clear st =
        { st with store := [], hits := 0, misses := 0, sets := 0, deletes := 0 })
    ∧ (∀ (V : Type) (st : CacheState V),
      (stats (clear st)).hits = 0 ∧ (stats (clear st)).misses = 0
      ∧ (stats (clear st)).sets = 0 ∧ (stats (clear st)).deletes = 0
      ∧ (stats (clear st)).size = 0)
    ∧ (stats c6Trace).hits = 3
    ∧ (stats c6Trace).misses = 1
    ∧ (stats c6Trace).hitRate = 75 := by
  refine ⟨?_, ?_, ?_, ?_, by decide, by decide, ?_⟩
  · intro V st h
    simp [stats, h]
  · intro V st h
    simp [stats, h]
  · intro V st
    rfl
  · intro V st
    exact ⟨rfl, rfl, rfl, rfl, rfl⟩
  · have h1 : c6Trace.hits = 3 := by decide
    have h2 : c6Trace.misses = 1 := by decide
    simp only [stats, h1, h2]
    norm_num [toFixed2, round_eq]

/-- Claim C6, witness: the positive-reads conjunct applied to the
concrete 3-hit 1-miss trace. -/
theorem c6_stats_and_clear_witness :
    c6Trace.hits + c6Trace.misses > 0
    ∧ (stats c6Trace).hitRate =
        toFixed2 (((c6Trace.hits : ℚ) /
          ((c6Trace.hits : ℚ) + (c6Trace.misses : ℚ))) * 100) :=
  ⟨by decide, c6_stats_and_clear.1 Nat c6Trace (by decide)⟩

/-- Claim C7: `addToArray(arrayKey, item)` on an uncached key only
increments the miss counter — `get(arrayKey)` afterwards still reports
absence — while on a key holding a cached (unexpired) array of length N
it re-sets the key to the array with `item` appended (length N + 1,
containing `item`), with the TTL refreshed per the resolution rule. -/
theorem c7_add_to_array :
    (∀ (α : Type) (now : Int) (key : String) (item : IdRecord α)
        (st : CacheState (List (IdRecord α))),
      mapGet key st.store = none →
      addToArray now key item st = { st with misses := st.misses + 1 }
      ∧ ∀ t : Int, (get t key (addToArray now key item st)).1 = none)
    ∧ (∀ (α : Type) (now : Int) (key : String) (item : IdRecord α)
        (st : CacheState (List (IdRecord α))) (e : CacheEntry (List (IdRecord α))),
      mapGet key st.store = some e →
      isExpired e now = false →
      mapGet key ((addToArray now key item st).store) =
        some (mkEntry now (resolveTTL st none now) (e.value ++ [item]))
      ∧ (e.value ++ [item]).length = e.value.length + 1
      ∧ item ∈ e.value ++ [item]) := by
  constructor
  · intro α now key item st hm
    have hres : addToArray now key item st = { st with misses := st.misses + 1 } := by
      simp [addToArray, get, hm]
    refine ⟨hres, ?_⟩
    intro t
    rw [hres]
    simp [get, hm]
  · intro α now key item st e hm hexp
    refine ⟨?_, by simp, by simp⟩
    simp [addToArray, get, hm, hexp, set]
    exact mapGet_mapSet_self _ _ _

/-- Claim C7, witness: the uncached-key conjunct applied to a key absent
from the concrete one-entry frontend cache, with the follow-up read
taken at time 5. -/
theorem c7_add_to_array_witness :
    mapGet "zz" stNoMatch.store = none
    ∧ addToArray 0 "zz" { id := "a", payload := 9 } stNoMatch =
        { stNoMatch with misses := stNoMatch.misses + 1 }
    ∧ (get 5 "zz" (addToArray 0 "zz" { id := "a", payload := 9 } stNoMatch)).1
        = none :=
  ⟨by decide,
    (c7_add_to_array.1 Nat 0 "zz" { id := "a", payload := 9 } stNoMatch
      (by decide)).1,
    (c7_add_to_array.1 Nat 0 "zz" { id := "a", payload := 9 } stNoMatch
      (by decide)).2 5⟩

/-- Claim C8, counterexample: `"constructor"` is not a registered
backend type, yet the untyped lookup finds
`Object.prototype.constructor` through the prototype chain, so `create`
raises no configuration error and hands the caller the plain object
built by `new Object(options)` instead of a cache instance. -/
theorem c8_factory_cex :
    mapGet "constructor" defaultCacheTypes = none
    ∧ CacheFactory.create defaultCacheTypes (some "constructor") =
        CreateResult.protoObject
    ∧ CacheFactory.create defaultCacheTypes (some "constructor") ≠
        CreateResult.configError ("Unknown cache type: " ++ "constructor") := by
  decide

/-- Claim C8 (amended): an unknown backend type raises the fatal
configuration error at construction time — before any instance is handed
out — only when its name is not a property inherited from
`Object.prototype`; for an inherited name the check is skipped:
`"constructor"` yields the plain object of `new Object(options)` (a
bogus non-cache instance handed to the caller) and the other inherited
names make `new` throw a TypeError.  The known type `"memory"`, and any
type added via `register` under a name other than `"__proto__"` (whose
assignment mutates the prototype instead of the registry), constructs
successfully and returns an instance of the registered class. -/
theorem c8_factory :
    (∀ (κ : Type) (reg : List (String × κ)) (t : String),
      t ≠ "" → mapGet t reg = none → t ∉ objectPrototypeProps →
      CacheFactory.create reg (some t) =
        CreateResult.configError ("Unknown cache type: " ++ t)
      ∧ ∀ c : κ, CacheFactory.create reg (some t) ≠ CreateResult.created c)
    ∧ CacheFactory.create defaultCacheTypes (some "memory") =
        CreateResult.created "InMemoryCache"
    ∧ CacheFactory.create defaultCacheTypes (some "constructor") =
        CreateResult.protoObject
    ∧ (∀ (κ : Type) (reg : List (String × κ)) (name : String) (c : κ),
      name ≠ "" → name ≠ "__proto__" →
      CacheFactory.create (CacheFactory.register reg name c) (some name) =
        CreateResult.created c) := by
  refine ⟨?_, by rfl, by decide, ?_⟩
  · intro κ reg t ht hm hproto
    have hcons : ¬ t = "constructor" := by
      intro h
      subst h
      exact hproto (by decide)
    have h : CacheFactory.create reg (some t) =
        CreateResult.configError ("Unknown cache type: " ++ t) := by
      simp [CacheFactory.create, ht, hm, hcons, hproto]
    exact ⟨h, fun c hc => by rw [h] at hc; exact CreateResult.noConfusion hc⟩
  · intro κ reg name c hname hproto
    simp [CacheFactory.create, CacheFactory.register, hname, hproto,
      mapGet_mapSet_self]

/-- Claim C8, witness: a truly absent type name — registered nowhere and
not inherited from `Object.prototype` — is rejected with the fatal
configuration error on the default registry. -/
theorem c8_factory_witness :
    "mongodb" ≠ ""
    ∧ mapGet "mongodb" defaultCacheTypes = none
    ∧ "mongodb" ∉ objectPrototypeProps
    ∧ CacheFactory.create defaultCacheTypes (some "mongodb") =
        CreateResult.configError ("Unknown cache type: " ++ "mongodb") :=
  ⟨by decide, by decide, by decide,
    (c8_factory.1 String defaultCacheTypes "mongodb" (by decide) (by decide)
      (by decide)).1⟩

/-- Claim C9: `set(k, v, 0)` — an explicit TTL of zero seconds — stores
an entry with `expiresAt = null`, which never expires by time: a `get`
at any later time still returns `v`. -/
theorem c9_zero_ttl_never_expires :
    ∀ (V : Type) (st : CacheState V) (now : Int) (k : String) (v : V) (t : Int),
      mapGet k ((set now k v (some 0) st).store) = some (mkEntry now 0 v)
      ∧ (mkEntry now 0 v : CacheEntry V).expiresAt = none
      ∧ (get t k (set now k v (some 0) st)).1 = some v := by
  intro V st now k v t
  have h1 : mapGet k ((set now k v (some 0) st).store) = some (mkEntry now 0 v) := by
    simp only [set]
    exact mapGet_mapSet_self _ _ _
  refine ⟨h1, by simp [mkEntry], ?_⟩
  simp [get, h1, isExpired, mkEntry]

/-- Claim C10: `delete` checks only physical presence, not expiry — on a
physically stored entry whose `expiresAt` has passed, `delete` returns
true and increments `deletes`, even though `get` and `has` on the same
state report the key absent. -/
theorem c10_delete_physical :
    ∀ (V : Type) (st : CacheState V) (now : Int) (k : String)
      (e : CacheEntry V) (texp : Int),
      mapGet k st.store = some e →
      e.expiresAt = some texp →
      texp ≠ 0 →
      texp < now →
      (delete k st).1 = true
      ∧ ((delete k st).2).deletes = st.deletes + 1
      ∧ (get now k st).1 = none
      ∧ (has now k st).1 = false := by
  intro V st now k e texp hm he ht hlt
  have hexp : isExpired e now = true := by
    simp [isExpired, he, ht, hlt]
  refine ⟨?_, ?_, ?_, ?_⟩
  · simp [delete, hm]
  · simp [delete, hm]
  · simp [get, hm, hexp]
  · simp [has, hm, hexp]

/-- Claim C10, witness: the concrete cache physically holding an entry
for `"k"` that expired at time 5, observed at time 10. -/
theorem c10_delete_physical_witness :
    mapGet "k" stExpired.store =
      some { value := 7, createdAt := 0, expiresAt := some 5 }
    ∧ ((delete "k" stExpired).1 = true
       ∧ ((delete "k" stExpired).2).deletes = stExpired.deletes + 1
       ∧ (get 10 "k" stExpired).1 = none
       ∧ (has 10 "k" stExpired).1 = false) :=
  ⟨by decide,
    c10_delete_physical Nat stExpired 10 "k"
      { value := 7, createdAt := 0, expiresAt := some 5 } 5
      (by decide) (by decide) (by decide) (by decide)⟩

end LibraryCache
